import Mathlib

/-!
Verification development for the altui repository.

The screen emulator is embedded from src/altui/terminal.py (class _Screen).
_Screen derives from pyte.HistoryScreen; the pyte base class is a third-party
library whose sources are not part of this repository, so its behaviour
(the dense fixed-size cell grid, drawing, scrolling into the top history
deque, and the base resize) is modelled from the spec (sections 3 and 4.1),
while every method _Screen itself defines (virtual_lines,
content_at_virtual_line, cursor_virtual_position, resize, reverse_index,
prev_page, next_page) is translated directly from terminal.py.

The lifecycle controller and the cross-thread dispatch bridge are embedded
from src/altui/gdbapp.py, the relay and startup checks from
src/altui/gdbsupport.py, and the UI-side output acceptance from
src/altui/app.py.
-/

namespace Altui

/-- One terminal cell, translated from pyte.screens.Char as used by
terminal.py (fields data, fg, bg, bold, italics, underscore, strikethrough,
reverse). -/
structure PChar where
  data : String
  fg : String
  bg : String
  bold : Bool
  italics : Bool
  underscore : Bool
  strikethrough : Bool
  reverse : Bool
deriving Repr, DecidableEq

/-- The default (unstyled) character: a space with default colors. -/
def defaultChar : PChar :=
  ⟨" ", "default", "default", false, false, false, false, false⟩

/-- A plain, unstyled character holding the given glyph. -/
def plainChar (c : Char) : PChar := { defaultChar with data := c.toString }

/-- One screen row: a sparse map from column index to cell, mirroring the
per-line StaticDefaultDict used by pyte (columns never written are absent).
The empty list is the row value of a row that was never written. -/
abbrev Row := List (Nat × PChar)

/-- Write cell c at column k of row r (replace if the column is present,
append otherwise, keeping insertion order like a Python dict). -/
def rowSet (r : Row) (k : Nat) (c : PChar) : Row :=
  if (r.lookup k).isSome then
    r.map (fun p => if p.1 = k then (k, c) else p)
  else
    r ++ [(k, c)]

/-- Write the characters cs into row r starting at column x. -/
def drawRow (r : Row) (x : Nat) (cs : List Char) : Row :=
  match cs with
  | [] => r
  | c :: rest => drawRow (rowSet r x (plainChar c)) (x + 1) rest

/-- Screen state of _Screen (terminal.py).  Modelled from the spec:
the ScreenBuffer is a fixed-width/height grid of cells plus two history
deques (spec section 3), so buffer is the list of the lines visible rows
(top to bottom) and history_top and history_bottom are the scrollback
deques.  The dirty set and the style bookkeeping are omitted: no claim
mentions them. -/
structure Screen where
  columns : Nat
  lines : Nat
  buffer : List Row
  history_top : List Row
  history_bottom : List Row
  cursor_x : Nat
  cursor_y : Nat
deriving Repr, DecidableEq

/-- Well-formedness: the visible grid holds exactly lines rows. -/
def Screen.wf (s : Screen) : Prop := s.buffer.length = s.lines

/-- A fresh screen: an empty grid of the given size, cursor at the origin. -/
def Screen.init (columns lines : Nat) : Screen :=
  ⟨columns, lines, List.replicate lines [], [], [], 0, 0⟩

/-- Error values raised by the embedded screen methods. -/
inductive TermError where
  | indexError (n : Int)
  | assertionError (msg : String)
  | notImplementedError
deriving Repr, DecidableEq

/-- Translated from terminal.py lines 144-146: virtual_lines is
len(history.top) + lines + len(history.bottom). -/
def Screen.virtual_lines (s : Screen) : Nat :=
  s.history_top.length + s.lines + s.history_bottom.length

/-- Translated from terminal.py lines 148-157 (content_at_virtual_line):
a negative index raises IndexError; otherwise the three collections
history.top, buffer, history.bottom are walked in order, returning the
addressed row, and an empty row is returned past the end. -/
def Screen.content_at_virtual_line (s : Screen) (n : Int) : Except TermError Row :=
  if n < 0 then .error (.indexError n)
  else if h1 : n.toNat < s.history_top.length then
    .ok (s.history_top.get ⟨n.toNat, h1⟩)
  else if h2 : n.toNat - s.history_top.length < s.buffer.length then
    .ok (s.buffer.get ⟨n.toNat - s.history_top.length, h2⟩)
  else if h3 : n.toNat - s.history_top.length - s.buffer.length < s.history_bottom.length then
    .ok (s.history_bottom.get ⟨n.toNat - s.history_top.length - s.buffer.length, h3⟩)
  else .ok []

/-- Translated from terminal.py lines 159-164: the cursor position in
virtual-line space is (x, y + len(history.top)). -/
def Screen.cursor_virtual_position (s : Screen) : Nat × Nat :=
  (s.cursor_x, s.cursor_y + s.history_top.length)

/-- Translated from terminal.py lines 179-180: reverse_index always fails
an assertion. -/
def Screen.reverse_index (_s : Screen) : Except TermError Screen :=
  .error (.assertionError "reverse_index not supported yet")

/-- Translated from terminal.py lines 182-183: prev_page always raises
NotImplementedError. -/
def Screen.prev_page (_s : Screen) : Except TermError Screen :=
  .error .notImplementedError

/-- Translated from terminal.py lines 185-186: next_page always raises
NotImplementedError. -/
def Screen.next_page (_s : Screen) : Except TermError Screen :=
  .error .notImplementedError

/-- Modelled from the spec: drawing text (pyte.Screen.draw, not in src/).
Feed applies printable characters at the cursor (spec section 4.1);
the characters of text are written into the row under the cursor starting
at the cursor column, and the cursor advances.  Line wrapping is not
modelled: every claim only writes lines shorter than the width. -/
def Screen.draw (s : Screen) (text : String) : Screen :=
  { s with
      buffer := s.buffer.set s.cursor_y
        (drawRow (s.buffer.getD s.cursor_y []) s.cursor_x text.toList),
      cursor_x := s.cursor_x + text.length }

/-- Modelled from the spec: carriage return (pyte.Screen.carriage_return,
not in src/) moves the cursor to column 0 (spec section 4.1). -/
def Screen.carriage_return (s : Screen) : Screen := { s with cursor_x := 0 }

/-- Modelled from the spec: line feed (pyte.HistoryScreen index and
linefeed, not in src/).  On the bottom row the screen scrolls: the row
scrolled off the top of the visible buffer is appended to the history_top
deque (spec section 3: history deques hold rows scrolled off the top) and
an empty row enters at the bottom; otherwise the cursor moves down. -/
def Screen.linefeed (s : Screen) : Screen :=
  if s.cursor_y = s.lines - 1 then
    { s with
        history_top := s.history_top ++ s.buffer.take 1,
        buffer := s.buffer.drop 1 ++ [[]] }
  else
    { s with cursor_y := min (s.cursor_y + 1) (s.lines - 1) }

/-- Modelled from the spec: the base-class resize (pyte.Screen.resize, not
in src/).  A no-change resize returns early; shrinking the height deletes
the topmost rows of the grid (spec section 4.1: those rows were just saved
to history_top by the _Screen override); growing the height must not lose
content, so empty rows are appended at the bottom; shrinking the width
truncates columns beyond the new width; the cursor is clamped into the new
grid. -/
def Screen.base_resize (s : Screen) (lines columns : Nat) : Screen :=
  if lines = s.lines ∧ columns = s.columns then s
  else
    let buf :=
      if lines < s.lines then s.buffer.drop (s.lines - lines)
      else s.buffer ++ List.replicate (lines - s.lines) []
    let buf :=
      if columns < s.columns then buf.map (fun r => r.filter (fun p => p.1 < columns))
      else buf
    { s with
        lines := lines,
        columns := columns,
        buffer := buf,
        cursor_x := min s.cursor_x (columns - 1),
        cursor_y := min s.cursor_y (lines - 1) }

/-- Translated from terminal.py lines 171-177 (_Screen.resize): compute
dropped_lines = self.lines - lines; when positive, extend history.top with
buffer[i] for i in range(dropped_lines); then defer to the base resize. -/
def Screen.resize (s : Screen) (lines columns : Nat) : Screen :=
  let dropped : Int := (s.lines : Int) - (lines : Int)
  let s1 :=
    if 0 < dropped then
      { s with
          history_top :=
            s.history_top ++ (List.range dropped.toNat).map (fun i => s.buffer.getD i []) }
    else s
  s1.base_resize lines columns

/-- One feed or resize step, as observed by the screen: feed is modelled
from the spec (section 4.1) by its primitive effects (drawing text,
carriage return, line feed), resize is the _Screen.resize override. -/
inductive ScreenOp where
  | draw (text : String)
  | carriage_return
  | linefeed
  | resize (lines columns : Nat)
deriving Repr

/-- Apply one operation to the screen. -/
def Screen.applyOp (s : Screen) : ScreenOp → Screen
  | .draw t => s.draw t
  | .carriage_return => s.carriage_return
  | .linefeed => s.linefeed
  | .resize l c => s.resize l c

/-- Apply a sequence of feed and resize operations to the screen. -/
def Screen.applyOps (s : Screen) (ops : List ScreenOp) : Screen :=
  ops.foldl Screen.applyOp s

/-- The virtual-line mapping as the spec words it (spec section 3):
the row space is history_top, then the visible buffer rows in order, then
history_bottom, addressed by virtual_index = history_top_rows + buffer_row.
Stated from the spec for comparison with content_at_virtual_line. -/
def Screen.virtualRow (s : Screen) (n : Nat) : Row :=
  (s.history_top ++ s.buffer ++ s.history_bottom).getD n []

/-- Error raised through gdb.GdbError (gdbapp.py). -/
structure GdbError where
  msg : String
deriving Repr, DecidableEq

/-- A Python exception escaping a callback, identified by its rendered
traceback text. -/
structure PyExn where
  tb : String
deriving Repr, DecidableEq

/-- Rendered traceback of an exception (traceback.format_exc in
gdbapp.py line 44). -/
def traceback (e : PyExn) : String := e.tb

/-- A handle to a running UI application instance (the value stored in the
module-level _app_instance slot of gdbapp.py). -/
structure AppInstance where
  id : Nat
deriving Repr, DecidableEq

/-- The inputs of the startup checks of Configuration.__init__
(gdbsupport.py lines 60-66): whether the three standard streams resolve to
the same terminal, whether the host runs in MI (machine-interface) mode,
and the value of the TERM environment variable (none when unset). -/
structure StartupEnv where
  all_same_tty : Bool
  mi_mode : Bool
  term : Option String
deriving Repr, DecidableEq

/-- The UnsupportedError raised by Configuration.__init__, one constructor
per raise site: onlyTerminals stands for the message that altui can only
run on terminals, miMode for the MI-mode refusal, and badTerm for the
unsupported-terminal refusal carrying the TERM value. -/
inductive UnsupportedError where
  | onlyTerminals
  | miMode
  | badTerm (term : String)
deriving Repr, DecidableEq

/-- Translated from gdbsupport.py lines 60-66 (Configuration.__init__
startup checks, in source order): refuse unless all three standard streams
are the same TTY; refuse in MI mode; refuse when TERM is set to a truthy
(non-empty) value that does not start with xterm, linux or screen. -/
def Configuration.startup_checks (e : StartupEnv) : Except UnsupportedError Unit :=
  if !e.all_same_tty then .error .onlyTerminals
  else if e.mi_mode then .error .miMode
  else
    match e.term with
    | none => .ok ()
    | some t =>
      if t ≠ "" ∧ ¬(t.startsWith "xterm" || t.startsWith "linux" || t.startsWith "screen") then
        .error (.badTerm t)
      else .ok ()

/-- The singleton slot guarded by the life-cycle mutex: either no instance
(not running) or the one running instance. -/
abbrev LifecycleState := Option AppInstance

/-- Outcome of GdbCompatibleApp.start: the error raised (if any), the
resulting singleton slot, and how many UI threads were spawned. -/
structure StartResult where
  error : Option GdbError
  state : LifecycleState
  threads_spawned : Nat
deriving Repr, DecidableEq

/-- Translated from gdbapp.py lines 129-156 (GdbCompatibleApp.start): a
missing configuration raises a GdbError; with the life-cycle mutex held,
an occupied singleton slot raises GdbError with message Already enabled.
before any thread is spawned; otherwise one UI thread is spawned and the
slot is claimed by the fresh instance (set by __init__ on the UI thread
before the start barrier is released). -/
def GdbCompatibleApp.start (cfg : Option StartupEnv) (st : LifecycleState)
    (fresh : AppInstance) : StartResult :=
  match cfg with
  | none => ⟨some ⟨"Altui not supported if standard streams are not TTYs."⟩, st, 0⟩
  | some _ =>
    match st with
    | some inst => ⟨some ⟨"Already enabled."⟩, some inst, 0⟩
    | none => ⟨none, some fresh, 1⟩

/-- Outcome of GdbCompatibleApp.stop: the error raised (if any) and the
resulting singleton slot. -/
structure StopResult where
  error : Option GdbError
  state : LifecycleState
deriving Repr, DecidableEq

/-- Translated from gdbapp.py lines 164-175 (GdbCompatibleApp.stop): with
the life-cycle mutex held, an empty singleton slot raises GdbError with
message Not enabled. and changes nothing; otherwise exit runs on the UI
thread and clears the slot. -/
def GdbCompatibleApp.stop (st : LifecycleState) : StopResult :=
  match st with
  | none => ⟨some ⟨"Not enabled."⟩, none⟩
  | some _ => ⟨none, none⟩

/-- Threads of the process: the main (gdb/host) thread, the UI thread, the
relay thread, or any other thread. -/
inductive ThreadId where
  | main
  | ui
  | relay
  | other (n : Nat)
deriving Repr, DecidableEq

/-- The fatal-error path (Configuration.handle_fatal_error,
gdbsupport.py lines 124-151): resets the TTY, writes the diagnostic to the
real stderr and aborts the process; it never returns. -/
structure FatalError where
  msg : String
deriving Repr, DecidableEq

/-- Messages posted for printing on the host (gdb) thread by
GdbCompatibleApp.on_gdb_thread (gdbapp.py lines 252-262): when the main
thread is no longer alive the post is silently dropped, otherwise the
callback (here: printing msg) is posted to the gdb event queue. -/
def on_gdb_thread_print (main_alive : Bool) (msg : String) : List String :=
  if main_alive then [msg] else []

/-- Outcome of running a callback through the log_exceptions wrapper:
the value handed back (none when the callback raised), the exception
escaping the wrapper (always none), and the messages posted to the host
thread for printing. -/
structure CallOutcome (α : Type) where
  result : Option α
  raised : Option PyExn
  logged : List String
deriving Repr, DecidableEq

/-- Translated from gdbapp.py lines 30-50 (log_exceptions): run the
callback; on success hand its value back; when it raises an Exception,
catch it, post the formatted traceback to the gdb thread for printing
(dropped there if the main thread already terminated) and hand back None.
A callback is modelled as returning either a value or an exception. -/
def log_exceptions (main_alive : Bool) (cb : Unit → Except PyExn α) : CallOutcome α :=
  match cb () with
  | .ok v => ⟨some v, none, []⟩
  | .error e => ⟨none, none, on_gdb_thread_print main_alive (traceback e)⟩

/-- Translated from gdbapp.py lines 236-237 (on_ui_thread, also named
postToUI in the spec): call_next enqueues the log_exceptions-wrapped
callback onto the UI thread cooperative scheduler and returns normally;
the queue is modelled as the list of pending callbacks. -/
def on_ui_thread (queue : List (Unit → Except PyExn α)) (cb : Unit → Except PyExn α) :
    List (Unit → Except PyExn α) :=
  queue ++ [cb]

/-- Running one callback dispatched through on_ui_thread on the UI thread:
the log_exceptions wrapper around it decides what is returned, raised and
logged. -/
def run_dispatched (main_alive : Bool) (cb : Unit → Except PyExn α) : CallOutcome α :=
  log_exceptions main_alive cb

/-- Translated from gdbapp.py lines 239-250 (on_ui_thread_wait, also named
callUIAndWait in the spec): calling it on the UI thread itself takes the
fatal-error path (which aborts instead of returning or blocking);
otherwise call_from_thread runs the log_exceptions-wrapped callback on the
UI thread and hands its result back to the caller. -/
def on_ui_thread_wait (current : ThreadId) (main_alive : Bool)
    (cb : Unit → Except PyExn α) : Except FatalError (CallOutcome α) :=
  if current = ThreadId.ui then
    .error ⟨"on_ui_thread_wait cannot be executed on the UI thread"⟩
  else
    .ok (log_exceptions main_alive cb)

/-- A chunk of bytes read from a file descriptor. -/
abbrev Bytes := List Nat

/-- Observable effects of one relay-loop iteration (gdbsupport.py
_io_thread_func): writing bytes to the real terminal standard output, or
delivering bytes to the UI instance for interpretation (the enqueue
performed by UdbApp.process_output via on_ui_thread). -/
inductive RelayEffect where
  | write_stdout (buff : Bytes)
  | deliver_to_ui (inst : AppInstance) (buff : Bytes)
deriving Repr, DecidableEq

/-- Translated from app.py lines 377-387 (UdbApp.process_output): with the
singleton slot locked, reject the bytes (returning False) when no instance
is running; otherwise enqueue them onto the UI thread for interpretation
and accept them (returning True). -/
def UdbApp.process_output (inst : Option AppInstance) (buff : Bytes) :
    Bool × List RelayEffect :=
  match inst with
  | none => (false, [])
  | some i => (true, [.deliver_to_ui i buff])

/-- Translated from gdbsupport.py lines 231-234 (_io_thread_func, the
branch for the pseudo-terminal master being readable): the chunk read from
the master is offered to UdbApp.process_output; when it is not accepted it
is written unchanged to the real terminal standard output. -/
def relay_pty_output_step (inst : Option AppInstance) (buff : Bytes) : List RelayEffect :=
  let r := UdbApp.process_output inst buff
  if !r.1 then r.2 ++ [.write_stdout buff] else r.2

/-- The text of the k-th written line in the C2 scenario. -/
def lineText (k : Nat) : String := "line " ++ toString k

/-- The row produced by writing the k-th line at column 0 of a fresh row. -/
def lineRow (k : Nat) : Row := drawRow [] 0 (lineText k).toList

/-- Writing 30 lines of text: each of the first 29 lines is followed by a
carriage return and a line feed, the 30th line ends without one. -/
def writeThirtyOps : List ScreenOp :=
  ((List.range 29).flatMap
      (fun k => [.draw (lineText (k + 1)), .carriage_return, .linefeed]))
    ++ [ScreenOp.draw (lineText 30)]

/-- The 80 by 24 screen after writing 30 lines of text. -/
def writtenScreen : Screen := (Screen.init 80 24).applyOps writeThirtyOps

/-- The written screen after resizing to 80 by 10. -/
def shrunkScreen : Screen := writtenScreen.resize 10 80

/-- Concrete screen for the witness of c1_content_at_virtual_mapping: one
history row and a two-row buffer whose first row holds one cell. -/
def c1WitnessScreen : Screen :=
  ⟨5, 2, [[(0, plainChar "h".front)], []], [[(0, plainChar "a".front)]], [], 0, 0⟩

/-- Concrete screen for the witness of c2_resize_shrink_moves_rows: a
two-line screen with one written row. -/
def c2WitnessScreen : Screen :=
  ⟨3, 2, [[(0, plainChar "x".front)], []], [], [], 0, 0⟩

/-- C3: after any sequence of feed and resize operations, virtual_lines
equals len(history_top) + lines + len(history_bottom). -/
theorem c3_virtual_lines_invariant (s : Screen) (ops : List ScreenOp) :
    (s.applyOps ops).virtual_lines =
      (s.applyOps ops).history_top.length + (s.applyOps ops).lines +
        (s.applyOps ops).history_bottom.length := rfl

/-- C9: every reverse-scrolling or paging operation of the screen emulator
(reverse_index, prev_page, next_page) fails by raising, for every screen
state, instead of returning a modified screen. -/
theorem c9_unsupported_ops_raise (s : Screen) :
    s.reverse_index = .error (.assertionError "reverse_index not supported yet") ∧
    s.prev_page = .error .notImplementedError ∧
    s.next_page = .error .notImplementedError :=
  ⟨rfl, rfl, rfl⟩

/-- C4: every chunk read from the pseudo-terminal master is offered to the
UI application; with no UI instance it is rejected and written byte-exact
to the real terminal output, and with a UI instance it is accepted and
delivered to that instance for interpretation. -/
theorem c4_relay_byte_exact (buff : Bytes) (inst : AppInstance) :
    (UdbApp.process_output none buff).1 = false ∧
    relay_pty_output_step none buff = [.write_stdout buff] ∧
    (UdbApp.process_output (some inst) buff).1 = true ∧
    relay_pty_output_step (some inst) buff = [.deliver_to_ui inst buff] :=
  ⟨rfl, rfl, rfl, rfl⟩

/-- C5: start on an occupied singleton slot raises GdbError with message
Already enabled., spawns no thread and leaves the slot unchanged; stop on
an empty slot raises GdbError with message Not enabled. and leaves the
slot empty. -/
theorem c5_start_stop_errors (cfg : StartupEnv) (inst fresh : AppInstance) :
    GdbCompatibleApp.start (some cfg) (some inst) fresh =
      ⟨some ⟨"Already enabled."⟩, some inst, 0⟩ ∧
    GdbCompatibleApp.stop none = ⟨some ⟨"Not enabled."⟩, none⟩ :=
  ⟨rfl, rfl⟩

/-- C7: on_ui_thread_wait called on the UI thread itself takes the
fatal-error path instead of blocking; called from any other thread, the
result of a callback that returns normally is handed back to the caller. -/
theorem c7_on_ui_thread_wait_guard (α : Type) (main_alive : Bool)
    (cb : Unit → Except PyExn α) :
    on_ui_thread_wait ThreadId.ui main_alive cb =
      .error ⟨"on_ui_thread_wait cannot be executed on the UI thread"⟩ ∧
    (∀ t : ThreadId, t ≠ ThreadId.ui → ∀ v : α, cb () = .ok v →
      on_ui_thread_wait t main_alive cb = .ok ⟨some v, none, []⟩) := by
  refine ⟨rfl, ?_⟩
  intro t ht v hv
  simp [on_ui_thread_wait, log_exceptions, ht, hv]

/-- Witness for c7_on_ui_thread_wait_guard at a concrete callback and the
main thread as the caller. -/
theorem c7_witness :
    on_ui_thread_wait ThreadId.main true (fun _ => (Except.ok 42 : Except PyExn Nat)) =
      .ok ⟨some 42, none, []⟩ :=
  (c7_on_ui_thread_wait_guard Nat true (fun _ => Except.ok 42)).2
    ThreadId.main (by decide) 42 rfl

/-- Counterexample to C8 as stated: when the main thread of the host has
already terminated, an exception raised by a dispatched callback is caught
and swallowed but nothing is logged (on_gdb_thread drops the print), so
the dispatched exception is not always logged to the host output
channel. -/
theorem c8_counterexample :
    ¬ (∀ (main_alive : Bool) (cb : Unit → Except PyExn Unit) (e : PyExn),
        cb () = .error e →
          (run_dispatched main_alive cb).raised = none ∧
          (run_dispatched main_alive cb).logged = [traceback e]) := by
  intro h
  have h2 := (h false (fun _ => .error ⟨"boom"⟩) ⟨"boom"⟩ rfl).2
  simp [run_dispatched, log_exceptions, on_gdb_thread_print] at h2

/-- C8 (amended): a callback dispatched via on_ui_thread never propagates
an exception out of the dispatch boundary, the dispatch call itself
returns normally after enqueueing the callback, and an exception raised by
the callback is logged to the host output channel when the main thread of
the host is still alive (and silently dropped otherwise). -/
theorem c8_dispatched_exceptions_swallowed (α : Type) (main_alive : Bool)
    (q : List (Unit → Except PyExn α)) (cb : Unit → Except PyExn α) :
    on_ui_thread q cb = q ++ [cb] ∧
    (run_dispatched main_alive cb).raised = none ∧
    (∀ e : PyExn, cb () = .error e →
      (run_dispatched main_alive cb).result = none ∧
      (run_dispatched main_alive cb).logged =
        (if main_alive then [traceback e] else [])) := by
  refine ⟨rfl, ?_, ?_⟩
  · cases hcb : cb () <;> simp [run_dispatched, log_exceptions, hcb]
  · intro e he
    simp [run_dispatched, log_exceptions, he, on_gdb_thread_print]

/-- Witness for c8_dispatched_exceptions_swallowed at a concrete raising
callback with the main thread alive. -/
theorem c8_witness :
    (run_dispatched true (fun _ => (Except.error ⟨"boom"⟩ : Except PyExn Unit))).raised
        = none ∧
    (run_dispatched true (fun _ => (Except.error ⟨"boom"⟩ : Except PyExn Unit))).logged
        = ["boom"] := by
  have h := c8_dispatched_exceptions_swallowed Unit true []
    (fun _ => (Except.error ⟨"boom"⟩ : Except PyExn Unit))
  exact ⟨h.2.1, by simpa using (h.2.2 ⟨"boom"⟩ rfl).2⟩

/-- Counterexample to C10 as stated: TERM set to the empty string is set
and does not start with xterm, linux or screen, yet the startup checks
accept it (the Python truthiness test excludes the empty string). -/
theorem c10_counterexample :
    Configuration.startup_checks ⟨true, false, some ""⟩ = .ok () := by
  simp [Configuration.startup_checks]

/-- C10 (amended): when the stated startup preconditions hold (all
standard streams on one terminal, not in MI mode), startup also refuses to
start with the same UnsupportedError type whenever TERM is set to a
non-empty value that does not start with xterm, linux or screen. -/
theorem c10_bad_term_refused (e : StartupEnv) (t : String)
    (h1 : e.all_same_tty = true) (h2 : e.mi_mode = false)
    (h3 : e.term = some t) (h4 : t ≠ "")
    (h5 : t.startsWith "xterm" = false) (h6 : t.startsWith "linux" = false)
    (h7 : t.startsWith "screen" = false) :
    Configuration.startup_checks e = .error (.badTerm t) := by
  simp [Configuration.startup_checks, h1, h2, h3, h4, h5, h6, h7]

/-- Witness for c10_bad_term_refused at the concrete environment with TERM
set to dumb. -/
theorem c10_witness :
    Configuration.startup_checks ⟨true, false, some "dumb"⟩ =
      .error (.badTerm "dumb") :=
  c10_bad_term_refused ⟨true, false, some "dumb"⟩ "dumb" rfl rfl rfl
    (by decide) (by decide) (by decide) (by decide)

/-- C6: a negative virtual index raises IndexError, and an index at or
past virtual_lines returns the empty row instead of failing. -/
theorem c6_content_at_out_of_range :
    (∀ (s : Screen) (n : Int), n < 0 →
        s.content_at_virtual_line n = .error (.indexError n)) ∧
    (∀ (s : Screen) (n : Nat), s.wf → s.virtual_lines ≤ n →
        s.content_at_virtual_line (n : Int) = .ok ([] : Row)) := by
  constructor
  · intro s n hn
    unfold Screen.content_at_virtual_line
    rw [if_pos hn]
  · intro s n hwf hn
    have hb : s.buffer.length = s.lines := hwf
    have hvl : s.virtual_lines = s.history_top.length + s.lines + s.history_bottom.length := rfl
    rw [hvl] at hn
    have h0 : ¬((n : Int) < 0) := by omega
    unfold Screen.content_at_virtual_line
    rw [if_neg h0, dif_neg (by omega), dif_neg (by omega), dif_neg (by omega)]

/-- Witness for c6_content_at_out_of_range at a fresh 3 by 2 screen. -/
theorem c6_witness :
    (Screen.init 3 2).content_at_virtual_line (-1) = .error (.indexError (-1)) ∧
    (Screen.init 3 2).content_at_virtual_line ((99 : Nat) : Int) = .ok ([] : Row) :=
  ⟨c6_content_at_out_of_range.1 (Screen.init 3 2) (-1) (by decide),
   c6_content_at_out_of_range.2 (Screen.init 3 2) 99 rfl (by decide)⟩

/-- C1: for every well-formed screen and every virtual index n below
virtual_lines, content_at_virtual_line returns exactly the row addressed
by the virtual mapping (history_top rows first, then the visible buffer
rows in order, then history_bottom), so it returns an empty row only when
the addressed row was never written (holds no cell). -/
theorem c1_content_at_virtual_mapping (s : Screen) (n : Nat)
    (hwf : s.wf) (hn : n < s.virtual_lines) :
    s.content_at_virtual_line (n : Int) = .ok (s.virtualRow n) ∧
    (s.virtualRow n ≠ [] → s.content_at_virtual_line (n : Int) ≠ .ok ([] : Row)) := by
  have hb : s.buffer.length = s.lines := hwf
  have hvl : s.virtual_lines = s.history_top.length + s.lines + s.history_bottom.length := rfl
  rw [hvl] at hn
  have hmain : s.content_at_virtual_line (n : Int) = .ok (s.virtualRow n) := by
    have h0 : ¬((n : Int) < 0) := by omega
    have htn : ((n : Int)).toNat = n := by omega
    unfold Screen.content_at_virtual_line Screen.virtualRow
    rw [if_neg h0]
    simp only [htn]
    by_cases h1 : n < s.history_top.length
    · rw [dif_pos h1, List.getD_eq_getElem?_getD,
        List.getElem?_append_left (by simp; omega),
        List.getElem?_append_left h1, List.getElem?_eq_getElem h1]
      simp [List.get_eq_getElem]
    · rw [dif_neg h1]
      by_cases h2 : n - s.history_top.length < s.buffer.length
      · rw [dif_pos h2, List.getD_eq_getElem?_getD,
          List.getElem?_append_left (by simp; omega),
          List.getElem?_append_right (by omega),
          List.getElem?_eq_getElem h2]
        simp [List.get_eq_getElem]
      · have h3 : n - s.history_top.length - s.buffer.length < s.history_bottom.length := by
          omega
        rw [dif_neg h2, dif_pos h3, List.getD_eq_getElem?_getD,
          List.getElem?_append_right (by simp; omega)]
        simp only [List.length_append, Nat.sub_sub]
        rw [List.getElem?_eq_getElem (by omega)]
        simp [List.get_eq_getElem, Nat.sub_sub]
  refine ⟨hmain, ?_⟩
  intro hne heq
  rw [hmain] at heq
  simp only [Except.ok.injEq] at heq
  exact hne heq

/-- Witness for c1_content_at_virtual_mapping: virtual line 1 of the
concrete screen is the first buffer row. -/
theorem c1_witness :
    c1WitnessScreen.content_at_virtual_line ((1 : Nat) : Int) =
      .ok (c1WitnessScreen.virtualRow 1) ∧
    (c1WitnessScreen.virtualRow 1 ≠ [] →
      c1WitnessScreen.content_at_virtual_line ((1 : Nat) : Int) ≠ .ok ([] : Row)) :=
  c1_content_at_virtual_mapping c1WitnessScreen 1 rfl (by decide)

/-- Reading entries 0 to n-1 of a list through getD, in index order, is
take n when n is within the list. -/
theorem range_map_getD (l : List Row) (n : Nat) (h : n ≤ l.length) :
    (List.range n).map (fun i => l.getD i []) = l.take n := by
  induction n with
  | zero => simp
  | succ m ih =>
    rw [List.range_succ, List.map_append, ih (by omega)]
    have hm : m < l.length := by omega
    rw [List.take_succ, List.map_singleton, List.getD_eq_getElem?_getD,
      List.getElem?_eq_getElem hm]
    rfl

/-- Resizing a well-formed screen from L0 lines down to L lines moves the
topmost L0 - L buffer rows to history_top unchanged and keeps the bottom L
rows visible: the full record after _Screen.resize. -/
theorem resize_shrink_spec (s : Screen) (L : Nat) (hwf : s.wf) (hL : L < s.lines) :
    s.resize L s.columns =
      { s with
          history_top := s.history_top ++ s.buffer.take (s.lines - L),
          buffer := s.buffer.drop (s.lines - L),
          lines := L,
          cursor_x := min s.cursor_x (s.columns - 1),
          cursor_y := min s.cursor_y (L - 1) } := by
  have hb : s.buffer.length = s.lines := hwf
  have hpos : (0 : Int) < (s.lines : Int) - (L : Int) := by omega
  have hd : ((s.lines : Int) - (L : Int)).toNat = s.lines - L := by omega
  have hLne : ¬(L = s.lines) := by omega
  unfold Screen.resize Screen.base_resize
  simp only [hpos, if_true, hd, hLne, false_and, if_false, hL]
  rw [range_map_getD s.buffer (s.lines - L) (by omega)]
  simp [hLne, hL]

/-- C2: shrinking the height from L0 to L < L0 lines appends exactly
L0 - L rows, the topmost visible rows in their original order, to
history_top with no cell content altered, and keeps the bottom L rows
visible; in particular the 80 by 24 screen holding 30 written lines,
resized to 80 by 10, puts exactly 14 rows into top history and leaves the
last 10 written lines (lines 21 to 30) visible. -/
theorem c2_resize_shrink_moves_rows :
    (∀ (s : Screen) (L : Nat), s.wf → L < s.lines →
      ((s.resize L s.columns).history_top =
          s.history_top ++ s.buffer.take (s.lines - L)) ∧
      ((s.resize L s.columns).buffer = s.buffer.drop (s.lines - L)) ∧
      ((s.resize L s.columns).lines = L) ∧
      ((s.resize L s.columns).history_bottom = s.history_bottom)) ∧
    (shrunkScreen.history_top.length = writtenScreen.history_top.length + 14 ∧
     shrunkScreen.history_top =
        writtenScreen.history_top ++ writtenScreen.buffer.take 14 ∧
     shrunkScreen.buffer = (List.range 10).map (fun i => lineRow (21 + i)) ∧
     shrunkScreen.lines = 10 ∧
     writtenScreen.lines = 24 ∧ writtenScreen.columns = 80) := by
  constructor
  · intro s L hwf hL
    rw [resize_shrink_spec s L hwf hL]
    exact ⟨rfl, rfl, rfl, rfl⟩
  · exact ⟨by decide, by decide, by decide, by decide, by decide, by decide⟩

/-- Witness for c2_resize_shrink_moves_rows at the concrete two-line
screen shrunk to one line. -/
theorem c2_witness :
    ((c2WitnessScreen.resize 1 c2WitnessScreen.columns).history_top =
        c2WitnessScreen.history_top ++
          c2WitnessScreen.buffer.take (c2WitnessScreen.lines - 1)) ∧
    ((c2WitnessScreen.resize 1 c2WitnessScreen.columns).buffer =
        c2WitnessScreen.buffer.drop (c2WitnessScreen.lines - 1)) ∧
    ((c2WitnessScreen.resize 1 c2WitnessScreen.columns).lines = 1) ∧
    ((c2WitnessScreen.resize 1 c2WitnessScreen.columns).history_bottom =
        c2WitnessScreen.history_bottom) :=
  c2_resize_shrink_moves_rows.1 c2WitnessScreen 1 rfl (by decide)

end Altui
